import Mathlib

/-!
Shallow embedding of the adaptive evaluation scheduler of
`src/models/hooks/eval_hook.py` (class `CustomDistEvalHook` and the helper
`_calc_dynamic_intervals`), together with proofs about the interval policy,
the history-buffer state-isolation step around distributed evaluation, and
the checkpoint-saving branch of `_do_evaluate`.

Python tensors are modelled as lists of integers (`.clone()` produces an
equal value); a Python attribute holding either a tensor or `None` is an
`Option Tensor`.  Attribute access on an object that lacks the attribute
raises `AttributeError`; this is modelled by `Option` fields on the object
structures plus explicit error results.  External collaborators that live in
the host framework (`_should_evaluate`, `multi_gpu_test`, `self.evaluate`,
`dist.broadcast`) are modelled as oracle inputs and trace events, since only
their observable outcome at the call site matters to the hook code.
-/

/-- A tensor value; `clone()` copies the value bit-for-bit. -/
abbrev Tensor := List Int

/-- The `pts_bbox_head` object of the model: the capability flag and the four
recurrent history buffers.  A buffer equal to `none` is Python `None`. -/
structure Head where
  use_history_flag : Bool
  history_occ : Option Tensor
  history_seq_ids : Option Tensor
  history_forward_augs : Option Tensor
  history_sweep_time : Option Tensor
  deriving DecidableEq, Repr

/-- A model object as seen by the hook.  `hasModule` records whether the
`.module` attribute resolves (accessing it when absent raises
`AttributeError`); `className` is `.module.__class__.__name__`;
`isParallel` is the value of `is_parallel(model)` — modelled from the spec:
`is_parallel` lives in `models/hooks/utils.py`, outside the sources at hand,
and per the spec it reports whether the model is wrapped in a one-level
distribution wrapper.  `head` is the `pts_bbox_head` attribute of the
underlying module (`none` = attribute missing); per the spec the wrapper
indirection resolves to the same underlying head as direct access. -/
structure Model where
  hasModule : Bool
  className : String
  isParallel : Bool
  head : Option Head
  deriving DecidableEq, Repr

/-- The slice of the runner state the hook reads and writes: the primary
model `runner.model`, the EMA shadow model `runner.ema_model.ema_model`,
and the process rank. -/
structure Runner where
  model : Model
  ema : Model
  rank : Nat
  deriving DecidableEq, Repr

/-- Python-level exceptions the embedded code can raise. -/
inductive PyErr where
  | attributeError
  | nameError
  | assertionError
  | indexError
  | testError
  | metricError
  deriving DecidableEq, Repr

/-- Hook configuration fields read by `_do_evaluate`. -/
structure HookCfg where
  broadcast_bn_buffer : Bool
  save_best : Bool
  deriving DecidableEq, Repr

/-- Outcomes of the external collaborators invoked by `_do_evaluate`:
the inherited `_should_evaluate` decision, whether `multi_gpu_test` raises,
whether `self.evaluate` raises, and the key score `self.evaluate` returns
(`none` = Python `None`; a score of `0` is present but falsy). -/
structure Oracle where
  should_eval : Bool
  test_raises : Bool
  eval_raises : Bool
  key_score : Option Int
  deriving DecidableEq, Repr

/-- Observable calls `_do_evaluate` makes to external collaborators, in
order.  The loop broadcasting BatchNorm buffers is abstracted to a single
event since the per-module buffers are external torch state. -/
inductive Event where
  | broadcastBN
  | multiGpuTest
  | evaluateCall
  | saveCkpt (k : Int)
  deriving DecidableEq, Repr

/-- The local variables `history_occ`, `history_seq_ids`,
`history_forward_augs`, `history_sweep_time` of `_do_evaluate`:
`notTaken` = never bound (recognition or parallel check failed),
`noneOcc` = `history_occ = None` was bound, `taken` = all four clones. -/
inductive Snap where
  | notTaken
  | noneOcc
  | taken (occ seq augs sweep : Tensor)
  deriving DecidableEq, Repr

/-- Result of running `_do_evaluate`: `err = none` means it returned
normally, otherwise the exception that propagated; `runner` is the final
state of the mutated objects (mutations persist when an exception
propagates); `events` the collaborator calls made. -/
structure Outcome where
  err : Option PyErr
  runner : Runner
  events : List Event
  deriving DecidableEq, Repr

/-! ## Interval policy: `_calc_dynamic_intervals`, `__init__`, `_decide_interval` -/

/-- An element of the Python `dynamic_intervals` argument before the type
check: either a tuple of integers of some arity, or a value that is not a
tuple at all. -/
inductive PyEntry where
  | tup (elems : List Nat)
  | nonTuple
  deriving DecidableEq, Repr

/-- `mmcv.is_list_of(l, tuple)`: every element is a tuple. -/
def is_list_of_tuple (l : List PyEntry) : Bool :=
  l.all fun e => match e with
    | .tup _ => true
    | .nonTuple => false

/-- Python indexing `e[i]` on a tuple: raises `IndexError` when out of
range (and `nonTuple` entries are never indexed after the assert). -/
def tupGet (e : PyEntry) (i : Nat) : Except PyErr Nat :=
  match e with
  | .tup xs =>
      match xs.get? i with
      | some v => Except.ok v
      | none => Except.error PyErr.indexError
  | .nonTuple => Except.error PyErr.indexError

/-- The list comprehension `[d[0] for d in l]`, left to right, first
exception propagating. -/
def firsts : List PyEntry → Except PyErr (List Nat)
  | [] => Except.ok []
  | e :: rest =>
      match tupGet e 0 with
      | Except.error er => Except.error er
      | Except.ok v =>
          match firsts rest with
          | Except.error er => Except.error er
          | Except.ok vs => Except.ok (v :: vs)

/-- The list comprehension `[d[1] for d in l]`. -/
def seconds : List PyEntry → Except PyErr (List Nat)
  | [] => Except.ok []
  | e :: rest =>
      match tupGet e 1 with
      | Except.error er => Except.error er
      | Except.ok v =>
          match seconds rest with
          | Except.error er => Except.error er
          | Except.ok vs => Except.ok (v :: vs)

/-- `_calc_dynamic_intervals(start_interval, dynamic_interval_list)`:
asserts the argument is a list of tuples, then builds the milestone list
`[0] ++ [d[0] for d in l]` and the interval list
`[start_interval] ++ [d[1] for d in l]`. -/
def calc_dynamic_intervals (start_interval : Nat) (l : List PyEntry) :
    Except PyErr (List Nat × List Nat) :=
  if is_list_of_tuple l then
    match firsts l with
    | Except.error er => Except.error er
    | Except.ok ms =>
        match seconds l with
        | Except.error er => Except.error er
        | Except.ok is => Except.ok (0 :: ms, start_interval :: is)
  else Except.error PyErr.assertionError

/-- The hook state set up by `CustomDistEvalHook.__init__` that the
interval policy reads. -/
structure Hook where
  interval : Nat
  use_dynamic_intervals : Bool
  dynamic_milestones : List Nat
  dynamic_intervals : List Nat
  deriving DecidableEq, Repr

/-- `CustomDistEvalHook.__init__`: `interval` comes from the base class;
`use_dynamic_intervals` records whether `dynamic_intervals` was given, and
if so the milestone and interval lists are computed. -/
def hook_init (interval : Nat) (dynamic_intervals : Option (List PyEntry)) :
    Except PyErr Hook :=
  match dynamic_intervals with
  | none => Except.ok ⟨interval, false, [], []⟩
  | some l =>
      match calc_dynamic_intervals interval l with
      | Except.error er => Except.error er
      | Except.ok (ms, is) => Except.ok ⟨interval, true, ms, is⟩

/-- `bisect.bisect(a, x)` (= `bisect_right`) by its library contract on a
sorted list: the insertion point after any entries equal to `x`, i.e. the
length of the prefix of elements `≤ x`. -/
def bisect_right (x : Nat) : List Nat → Nat
  | [] => 0
  | a :: rest => if a ≤ x then bisect_right x rest + 1 else 0

/-- The body of `_decide_interval` when dynamic intervals are in use:
`step = bisect(milestones, progress + 1)`; the new interval is
`intervals[step - 1]`. -/
def decide_interval (milestones intervals : List Nat) (progress : Nat) : Nat :=
  intervals.getD (bisect_right (progress + 1) milestones - 1) 0

/-- `_decide_interval(runner)` followed by reading `self.interval`: the
interval in force at progress `p` (a no-op reassignment when dynamic
intervals are disabled). -/
def resolve (h : Hook) (p : Nat) : Nat :=
  if h.use_dynamic_intervals then
    decide_interval h.dynamic_milestones h.dynamic_intervals p
  else h.interval

/-- The Python `dynamic_intervals` list built from well-formed
(milestone, interval) pairs. -/
def tupList (l : List (Nat × Nat)) : List PyEntry :=
  l.map fun p => PyEntry.tup [p.1, p.2]

example : hook_init 5 (some (tupList [(10, 2), (20, 1)])) =
    Except.ok ⟨5, true, [0, 10, 20], [5, 2, 1]⟩ := rfl

/-! ## State isolation guard and `_do_evaluate` -/

/-- Assign `m.pts_bbox_head.history_occ = v`; callers check beforehand that
the head attribute is present. -/
def setOcc (m : Model) (v : Option Tensor) : Model :=
  match m.head with
  | none => m
  | some h => { m with head := some { h with history_occ := v } }

/-- Lines 63–78 of `_do_evaluate`: the state-isolation entry.  Checks
`runner.model.module.__class__.__name__ == "TemporalOcc"` and
`runner.model.module.pts_bbox_head.use_history_flag == True` (short-circuit:
the head is only dereferenced when the class name matches).  In the parallel
branch it clones the four history tensors when `history_occ` is not `None`
(cloning raises `AttributeError` if one of the other three is `None`), then
sets `history_occ = None` on the primary module and on the EMA module.  In
the non-parallel branch it sets `history_occ = None` on the EMA model first,
then on the primary model, and binds no locals.  Returns the mutated runner,
the bound locals, and the exception if one was raised (mutations made before
the raise persist). -/
def historyEntry (r : Runner) : Runner × Snap × Option PyErr :=
  if r.model.hasModule then
    if r.model.className = "TemporalOcc" then
      match r.model.head with
      | none => (r, Snap.notTaken, some PyErr.attributeError)
      | some h =>
        if h.use_history_flag then
          if r.model.isParallel then
            match h.history_occ with
            | some occ =>
              match h.history_seq_ids, h.history_forward_augs, h.history_sweep_time with
              | some sq, some au, some sw =>
                let snap := Snap.taken occ sq au sw
                let r1 := { r with model := setOcc r.model none }
                if r.ema.hasModule then
                  match r.ema.head with
                  | none => (r1, snap, some PyErr.attributeError)
                  | some _ => ({ r1 with ema := setOcc r.ema none }, snap, none)
                else (r1, snap, some PyErr.attributeError)
              | _, _, _ => (r, Snap.notTaken, some PyErr.attributeError)
            | none =>
              let r1 := { r with model := setOcc r.model none }
              if r.ema.hasModule then
                match r.ema.head with
                | none => (r1, Snap.noneOcc, some PyErr.attributeError)
                | some _ => ({ r1 with ema := setOcc r.ema none }, Snap.noneOcc, none)
              else (r1, Snap.noneOcc, some PyErr.attributeError)
          else
            match r.ema.head with
            | none => (r, Snap.notTaken, some PyErr.attributeError)
            | some _ =>
              let r1 := { r with ema := setOcc r.ema none }
              ({ r1 with model := setOcc r1.model none }, Snap.notTaken, none)
        else (r, Snap.notTaken, none)
    else (r, Snap.notTaken, none)
  else (r, Snap.notTaken, some PyErr.attributeError)

/-- Lines 113–126 of `_do_evaluate`: the restoration step, reached only when
no exception was raised earlier.  Re-evaluates the same recognition checks;
in the parallel branch it writes the cloned snapshot back onto the primary
module's four buffers when `history_occ` was captured (else sets
`history_occ = None`), then sets the EMA module's `history_occ = None`;
referencing the locals when they were never bound raises `NameError`.  In
the non-parallel branch it sets `history_occ = None` on the primary model
then on the EMA model. -/
def historyExit (r : Runner) (snap : Snap) : Runner × Option PyErr :=
  if r.model.hasModule then
    if r.model.className = "TemporalOcc" then
      match r.model.head with
      | none => (r, some PyErr.attributeError)
      | some h =>
        if h.use_history_flag then
          if r.model.isParallel then
            match snap with
            | Snap.notTaken => (r, some PyErr.nameError)
            | Snap.noneOcc =>
              let r1 := { r with model := setOcc r.model none }
              if r.ema.hasModule then
                match r.ema.head with
                | none => (r1, some PyErr.attributeError)
                | some _ => ({ r1 with ema := setOcc r.ema none }, none)
              else (r1, some PyErr.attributeError)
            | Snap.taken occ sq au sw =>
              let h' := { h with history_occ := some occ, history_seq_ids := some sq,
                                 history_forward_augs := some au, history_sweep_time := some sw }
              let r1 := { r with model := { r.model with head := some h' } }
              if r.ema.hasModule then
                match r.ema.head with
                | none => (r1, some PyErr.attributeError)
                | some _ => ({ r1 with ema := setOcc r.ema none }, none)
              else (r1, some PyErr.attributeError)
          else
            match r.model.head with
            | none => (r, some PyErr.attributeError)
            | some _ =>
              let r1 := { r with model := setOcc r.model none }
              match r1.ema.head with
              | none => (r1, some PyErr.attributeError)
              | some _ => ({ r1 with ema := setOcc r1.ema none }, none)
        else (r, none)
    else (r, none)
  else (r, some PyErr.attributeError)

/-- Whether the rank-0 block raises: `self.evaluate(runner, results)` is
called only on rank 0 and its exception propagates. -/
def rank0Err (rank : Nat) (eval_raises : Bool) : Option PyErr :=
  if rank = 0 then
    if eval_raises then some PyErr.metricError else none
  else none

/-- Collaborator calls of the rank-0 block (lines 103–111): on rank 0 the
metric evaluation runs; if it returns a score and
`self.save_best and key_score` is truthy (Python truthiness: a score that
is `None` or `0` is falsy), `self._save_ckpt(runner, key_score)` runs. -/
def rank0Events (rank : Nat) (eval_raises save_best : Bool) (key_score : Option Int) :
    List Event :=
  if rank = 0 then
    if eval_raises then [Event.evaluateCall]
    else
      match key_score with
      | some k =>
          if save_best ∧ k ≠ 0 then [Event.evaluateCall, Event.saveCkpt k]
          else [Event.evaluateCall]
      | none => [Event.evaluateCall]
  else []

/-- `CustomDistEvalHook._do_evaluate(runner)`: state-isolation entry, then
the BatchNorm buffer broadcast when configured, then the
`_should_evaluate` early return, then `multi_gpu_test` on the EMA model,
then the rank-0 metric/checkpoint block, then the restoration step.  There
is no `try`/`finally`: any exception aborts the remaining steps and
propagates, leaving the mutations made so far in place. -/
def do_evaluate (cfg : HookCfg) (o : Oracle) (r : Runner) : Outcome :=
  match historyEntry r with
  | (r1, _, some er) => ⟨some er, r1, []⟩
  | (r1, snap, none) =>
    let evs0 := if cfg.broadcast_bn_buffer then [Event.broadcastBN] else []
    if o.should_eval then
      let evs1 := evs0 ++ [Event.multiGpuTest]
      if o.test_raises then ⟨some PyErr.testError, r1, evs1⟩
      else
        let evs2 := evs1 ++ rank0Events r1.rank o.eval_raises cfg.save_best o.key_score
        match rank0Err r1.rank o.eval_raises with
        | some er => ⟨some er, r1, evs2⟩
        | none =>
            match historyExit r1 snap with
            | (r2, e3) => ⟨e3, r2, evs2⟩
    else ⟨none, r1, evs0⟩

example : decide_interval [0, 10, 20] [5, 2, 1] 0 = 5 := by decide
example : decide_interval [0, 10, 20] [5, 2, 1] 9 = 2 := by decide
example : decide_interval [0, 10, 20] [5, 2, 1] 19 = 1 := by decide
example : decide_interval [0, 10, 20] [5, 2, 1] 100 = 1 := by decide

/-! ## Concrete fixtures used by counterexamples -/

/-- A primary head with all four history buffers holding non-empty tensors. -/
def headP : Head := ⟨true, some [1], some [2], some [3], some [4]⟩

/-- An EMA head with all four history buffers holding non-empty tensors. -/
def headE : Head := ⟨true, some [9], some [8], some [7], some [6]⟩

/-- A recognized parallel `TemporalOcc` runner with non-empty buffers on
both the primary and the EMA model, on rank 0. -/
def runnerP : Runner :=
  ⟨⟨true, "TemporalOcc", true, some headP⟩, ⟨true, "EMAModel", true, some headE⟩, 0⟩

/-- A runner whose model is not of the recognized family, on rank 0. -/
def runnerO : Runner :=
  ⟨⟨true, "OtherModel", false, none⟩, ⟨true, "OtherModel", false, none⟩, 0⟩

/-! ## Helper lemmas -/

/-- `bisect_right` is monotone in the probe value. -/
theorem bisect_right_mono (x y : Nat) (hxy : x ≤ y) :
    ∀ ms : List Nat, bisect_right x ms ≤ bisect_right y ms := by
  intro ms
  induction ms with
  | nil => exact Nat.le_refl 0
  | cons a rest ih =>
    by_cases h : a ≤ x
    · have hy : a ≤ y := Nat.le_trans h hxy
      simp only [bisect_right, if_pos h, if_pos hy]
      exact Nat.succ_le_succ ih
    · simp only [bisect_right, if_neg h]
      exact Nat.zero_le _

/-- Every element of a well-formed `dynamic_intervals` list is a tuple. -/
theorem is_list_of_tuple_tupList :
    ∀ l : List (Nat × Nat), is_list_of_tuple (tupList l) = true
  | [] => rfl
  | p :: rest => by
      simpa [tupList, is_list_of_tuple] using is_list_of_tuple_tupList rest

/-- `[d[0] for d in l]` on a list of pairs returns the milestones. -/
theorem firsts_tupList :
    ∀ l : List (Nat × Nat), firsts (tupList l) = Except.ok (l.map Prod.fst)
  | [] => rfl
  | p :: rest => by
      have ih := firsts_tupList rest
      simp only [tupList] at ih
      simp [tupList, firsts, tupGet, ih]

/-- `[d[1] for d in l]` on a list of pairs returns the intervals. -/
theorem seconds_tupList :
    ∀ l : List (Nat × Nat), seconds (tupList l) = Except.ok (l.map Prod.snd)
  | [] => rfl
  | p :: rest => by
      have ih := seconds_tupList rest
      simp only [tupList] at ih
      simp [tupList, seconds, tupGet, ih]

/-! ## Claim C3: interval resolution on the example table -/

/-- Claim C3, counterexample: with base interval 5 and dynamic list
`[(10,2),(20,1)]` the code resolves progress 9 to interval 2, not to 5 as
the claim (greatest milestone `≤ p`) states: `bisect` is probed at
`progress + 1`, so the interval of milestone 10 is already in force at
progress 9. -/
theorem resolve_milestone_example_cex :
    hook_init 5 (some (tupList [(10, 2), (20, 1)])) =
      Except.ok ⟨5, true, [0, 10, 20], [5, 2, 1]⟩ ∧
    resolve ⟨5, true, [0, 10, 20], [5, 2, 1]⟩ 9 = 2 ∧
    resolve ⟨5, true, [0, 10, 20], [5, 2, 1]⟩ 9 ≠ 5 :=
  ⟨rfl, by decide, by decide⟩

/-- Claim C3 (amended): for the table built from base interval 5 and
dynamic list `[(10,2),(20,1)]`, `_decide_interval` resolves progress `p` to
the interval of the greatest milestone `≤ p + 1`; hence
`resolve 0 = 5`, `resolve 9 = 2`, `resolve 10 = 2`, `resolve 19 = 1`,
`resolve 20 = 1`, `resolve 100 = 1`. -/
theorem resolve_milestone_example :
    hook_init 5 (some (tupList [(10, 2), (20, 1)])) =
      Except.ok ⟨5, true, [0, 10, 20], [5, 2, 1]⟩
    ∧ (∀ p : Nat, resolve ⟨5, true, [0, 10, 20], [5, 2, 1]⟩ p =
        if p + 1 < 10 then 5 else if p + 1 < 20 then 2 else 1)
    ∧ resolve ⟨5, true, [0, 10, 20], [5, 2, 1]⟩ 0 = 5
    ∧ resolve ⟨5, true, [0, 10, 20], [5, 2, 1]⟩ 9 = 2
    ∧ resolve ⟨5, true, [0, 10, 20], [5, 2, 1]⟩ 10 = 2
    ∧ resolve ⟨5, true, [0, 10, 20], [5, 2, 1]⟩ 19 = 1
    ∧ resolve ⟨5, true, [0, 10, 20], [5, 2, 1]⟩ 20 = 1
    ∧ resolve ⟨5, true, [0, 10, 20], [5, 2, 1]⟩ 100 = 1 := by
  refine ⟨rfl, ?_, by decide, by decide, by decide, by decide, by decide, by decide⟩
  intro p
  by_cases h1 : 10 ≤ p + 1 <;> by_cases h2 : 20 ≤ p + 1 <;>
    simp [resolve, decide_interval, bisect_right, List.getD, h1, h2] <;>
    split_ifs <;> omega

/-! ## Claim C4: monotonicity of interval resolution -/

/-- Claim C4, counterexample: the resolved interval value is not
monotonically non-decreasing in progress (the sorted table
`[(0,5),(10,1)]` resolves 0 to 5 and 10 to 2), and progress strictly below
the first user milestone does not always get the base interval (progress 9
with first milestone 10 resolves to 2, not to the base 5). -/
theorem resolve_value_monotone_cex :
    (¬ ∀ (ms is : List Nat) (p1 p2 : Nat), List.Pairwise (· < ·) ms →
        is.length = ms.length → p1 ≤ p2 →
        decide_interval ms is p1 ≤ decide_interval ms is p2) ∧
    (¬ ∀ (m1 : Nat) (rest is : List Nat) (base p : Nat),
        List.Pairwise (· < ·) (0 :: m1 :: rest) → p < m1 →
        decide_interval (0 :: m1 :: rest) (base :: is) p = base) := by
  constructor
  · intro h
    exact absurd (h [0, 10] [5, 2] 0 10 (by decide) (by decide) (by decide)) (by decide)
  · intro h
    exact absurd (h 10 [] [2] 5 9 (by decide) (by decide)) (by decide)

/-- Claim C4 (amended): the position selected in the milestone table is
monotonically non-decreasing as progress increases (`bisect_right` is
monotone in the probe, hence in `progress`); and the base interval is in
force exactly while `progress + 1` is still strictly below the first
user-supplied milestone. -/
theorem resolve_step_monotone_and_base :
    (∀ (ms : List Nat) (x y : Nat), x ≤ y → bisect_right x ms ≤ bisect_right y ms)
    ∧ (∀ (m1 : Nat) (rest is : List Nat) (base p : Nat), p + 1 < m1 →
        decide_interval (0 :: m1 :: rest) (base :: is) p = base) := by
  constructor
  · intro ms x y hxy
    exact bisect_right_mono x y hxy ms
  · intro m1 rest is base p hp
    have h' : ¬ m1 ≤ p + 1 := by omega
    simp [decide_interval, bisect_right, h']

/-- Witness for `resolve_step_monotone_and_base` at concrete inputs. -/
theorem resolve_step_monotone_and_base_witness :
    bisect_right 4 [0, 10, 20] ≤ bisect_right 15 [0, 10, 20] ∧
    decide_interval [0, 10, 20] [5, 2, 1] 3 = 5 :=
  ⟨resolve_step_monotone_and_base.1 [0, 10, 20] 4 15 (by decide),
   resolve_step_monotone_and_base.2 10 [20] [2, 1] 5 3 (by decide)⟩

/-! ## Claim C9: construction-time validation of `dynamic_intervals` -/

/-- Claim C9, counterexample: a `dynamic_intervals` list whose milestones
are not strictly increasing, and one whose milestone collides with the
implicit start threshold 0, are both accepted silently by the constructor —
no configuration error is raised. -/
theorem hook_init_fails_fast_cex :
    hook_init 5 (some (tupList [(20, 1), (10, 2)])) =
      Except.ok ⟨5, true, [0, 20, 10], [5, 1, 2]⟩ ∧
    hook_init 5 (some (tupList [(0, 3)])) = Except.ok ⟨5, true, [0, 0], [5, 3]⟩ :=
  ⟨rfl, rfl⟩

/-- Claim C9 (amended): construction validates only the shape of the
entries — a non-tuple entry fails the `mmcv.is_list_of` assertion and a
tuple of arity 1 raises `IndexError` while the lists are built — but any
list of pairs is accepted, regardless of whether its milestones are
strictly increasing or distinct from the implicit start threshold 0. -/
theorem hook_init_validation :
    (∀ (start : Nat) (l : List PyEntry), is_list_of_tuple l = false →
        hook_init start (some l) = Except.error PyErr.assertionError)
    ∧ (∀ start a : Nat, hook_init start (some [PyEntry.tup [a]]) =
        Except.error PyErr.indexError)
    ∧ (∀ (start : Nat) (l : List (Nat × Nat)),
        hook_init start (some (tupList l)) =
          Except.ok ⟨start, true, 0 :: l.map Prod.fst, start :: l.map Prod.snd⟩) := by
  refine ⟨?_, ?_, ?_⟩
  · intro start l h
    simp [hook_init, calc_dynamic_intervals, h]
  · intro start a
    rfl
  · intro start l
    simp [hook_init, calc_dynamic_intervals, is_list_of_tuple_tupList,
          firsts_tupList, seconds_tupList]

/-- Witness for `hook_init_validation` at concrete inputs. -/
theorem hook_init_validation_witness :
    hook_init 5 (some [PyEntry.nonTuple]) = Except.error PyErr.assertionError ∧
    hook_init 5 (some [PyEntry.tup [7]]) = Except.error PyErr.indexError ∧
    hook_init 5 (some (tupList [(10, 2)])) = Except.ok ⟨5, true, [0, 10], [5, 2]⟩ :=
  ⟨hook_init_validation.1 5 [PyEntry.nonTuple] rfl,
   hook_init_validation.2.1 5 7,
   hook_init_validation.2.2 5 [(10, 2)]⟩

/-! ## Claim C7: the isolation step on unrecognized or malformed models -/

/-- Claim C7, counterexample: when `runner.model` has no `.module`
attribute, the very first recognition check of `_do_evaluate` raises
`AttributeError` — the isolation step is not skipped silently. -/
theorem history_entry_never_raises_cex :
    historyEntry ⟨⟨false, "TemporalOcc", true, some headP⟩,
                  ⟨true, "EMAModel", true, some headE⟩, 0⟩ =
      (⟨⟨false, "TemporalOcc", true, some headP⟩,
        ⟨true, "EMAModel", true, some headE⟩, 0⟩,
       Snap.notTaken, some PyErr.attributeError) ∧
    (historyEntry ⟨⟨false, "TemporalOcc", true, some headP⟩,
                   ⟨true, "EMAModel", true, some headE⟩, 0⟩).2.2 ≠ none :=
  ⟨rfl, by decide⟩

/-- Claim C7 (amended): the isolation step is a silent no-op exactly when
the recognition test itself evaluates false — `use_history_flag` false
(any class name), or a class name other than `TemporalOcc` (head attribute
not even dereferenced) — but a model missing the `.module` attribute, or a
`TemporalOcc` model missing `pts_bbox_head`, makes the recognition check
itself raise `AttributeError`. -/
theorem history_entry_skip_and_raise :
    (∀ (cn : String) (par : Bool) (o1 o2 o3 o4 : Option Tensor) (ema : Model) (rank : Nat),
        historyEntry ⟨⟨true, cn, par, some ⟨false, o1, o2, o3, o4⟩⟩, ema, rank⟩ =
          (⟨⟨true, cn, par, some ⟨false, o1, o2, o3, o4⟩⟩, ema, rank⟩, Snap.notTaken, none))
    ∧ (∀ (cn : String) (par : Bool) (hd : Option Head) (ema : Model) (rank : Nat),
        cn ≠ "TemporalOcc" →
        historyEntry ⟨⟨true, cn, par, hd⟩, ema, rank⟩ =
          (⟨⟨true, cn, par, hd⟩, ema, rank⟩, Snap.notTaken, none))
    ∧ (∀ (cn : String) (par : Bool) (hd : Option Head) (ema : Model) (rank : Nat),
        historyEntry ⟨⟨false, cn, par, hd⟩, ema, rank⟩ =
          (⟨⟨false, cn, par, hd⟩, ema, rank⟩, Snap.notTaken, some PyErr.attributeError))
    ∧ (∀ (par : Bool) (ema : Model) (rank : Nat),
        historyEntry ⟨⟨true, "TemporalOcc", par, none⟩, ema, rank⟩ =
          (⟨⟨true, "TemporalOcc", par, none⟩, ema, rank⟩, Snap.notTaken,
           some PyErr.attributeError)) := by
  refine ⟨?_, ?_, ?_, ?_⟩
  · intro cn par o1 o2 o3 o4 ema rank
    by_cases hc : cn = "TemporalOcc" <;> simp [historyEntry, hc]
  · intro cn par hd ema rank hc
    simp [historyEntry, hc]
  · intro cn par hd ema rank
    rfl
  · intro par ema rank
    rfl

/-- Witness for `history_entry_skip_and_raise` at concrete inputs. -/
theorem history_entry_skip_and_raise_witness :
    historyEntry ⟨⟨true, "BEVDet", true, none⟩, ⟨true, "E", true, none⟩, 0⟩ =
      (⟨⟨true, "BEVDet", true, none⟩, ⟨true, "E", true, none⟩, 0⟩,
       Snap.notTaken, none) :=
  history_entry_skip_and_raise.2.1 "BEVDet" true none ⟨true, "E", true, none⟩ 0 (by decide)

/-! ## Claim C6: what the entry step clears -/

/-- Claim C6, counterexample: on entry for a recognized parallel model,
only `history_occ` is set to `None`; `history_seq_ids` (and the
forward-augmentation and sweep-time buffers) keep their non-empty values on
the primary model — not all four buffers are cleared. -/
theorem history_entry_clears_all_cex :
    historyEntry runnerP =
      (⟨⟨true, "TemporalOcc", true, some ⟨true, none, some [2], some [3], some [4]⟩⟩,
        ⟨true, "EMAModel", true, some ⟨true, none, some [8], some [7], some [6]⟩⟩, 0⟩,
       Snap.taken [1] [2] [3] [4], none) ∧
    (⟨true, none, some [2], some [3], some [4]⟩ : Head).history_seq_ids ≠ none :=
  ⟨rfl, by decide⟩

/-- Claim C6 (amended): on entry for a recognized model, only the
`history_occ` buffer is cleared to `None` — on both the primary and the EMA
model, in the parallel and in the non-parallel branch alike — while the
sequence-id, forward-augmentation and sweep-time buffers are left in place
(on the primary they are snapshotted, not cleared). -/
theorem history_entry_clears_only_occ :
    (∀ (occ sq au sw : Tensor) (e : Head) (cn2 : String) (par2 : Bool) (rank : Nat),
        historyEntry ⟨⟨true, "TemporalOcc", true,
                       some ⟨true, some occ, some sq, some au, some sw⟩⟩,
                      ⟨true, cn2, par2, some e⟩, rank⟩ =
          (⟨⟨true, "TemporalOcc", true,
             some ⟨true, none, some sq, some au, some sw⟩⟩,
            ⟨true, cn2, par2, some { e with history_occ := none }⟩, rank⟩,
           Snap.taken occ sq au sw, none))
    ∧ (∀ (h e : Head) (hm2 : Bool) (cn2 : String) (par2 : Bool) (rank : Nat),
        historyEntry ⟨⟨true, "TemporalOcc", false,
                       some { h with use_history_flag := true }⟩,
                      ⟨hm2, cn2, par2, some e⟩, rank⟩ =
          (⟨⟨true, "TemporalOcc", false,
             some { h with use_history_flag := true, history_occ := none }⟩,
            ⟨hm2, cn2, par2, some { e with history_occ := none }⟩, rank⟩,
           Snap.notTaken, none)) := by
  constructor
  · intro occ sq au sw e cn2 par2 rank
    rfl
  · intro h e hm2 cn2 par2 rank
    rfl

/-! ## Claim C2: the early return when the trigger is false -/

/-- Claim C2, counterexample: with the trigger false, `_do_evaluate` is not
side-effect free — the state-isolation entry has already run before the
trigger check, so `history_occ` is `None` on both the primary and the EMA
model when the call returns, and no restoration happens on this path. -/
theorem do_evaluate_trigger_false_side_effects_cex :
    do_evaluate ⟨false, false⟩ ⟨false, false, false, none⟩ runnerP =
      ⟨none,
       ⟨⟨true, "TemporalOcc", true, some ⟨true, none, some [2], some [3], some [4]⟩⟩,
        ⟨true, "EMAModel", true, some ⟨true, none, some [8], some [7], some [6]⟩⟩, 0⟩,
       []⟩ ∧
    (do_evaluate ⟨false, false⟩ ⟨false, false, false, none⟩ runnerP).runner ≠ runnerP :=
  ⟨rfl, by decide⟩

/-- Claim C2 (amended): when `_should_evaluate` is false, `_do_evaluate`
returns normally and never invokes the distributed test runner, the metric
evaluation or the checkpoint save; but the call is not free of side
effects: the state-isolation entry runs before the trigger check, so for a
recognized parallel model `history_occ` is cleared to `None` on both the
primary and the EMA model and is not restored (and the configured BatchNorm
broadcast also precedes the check). -/
theorem do_evaluate_trigger_false_no_test :
    (∀ (cfg : HookCfg) (tr er : Bool) (key : Option Int) (r : Runner),
        Event.multiGpuTest ∉ (do_evaluate cfg ⟨false, tr, er, key⟩ r).events ∧
        Event.evaluateCall ∉ (do_evaluate cfg ⟨false, tr, er, key⟩ r).events ∧
        ∀ k : Int, Event.saveCkpt k ∉ (do_evaluate cfg ⟨false, tr, er, key⟩ r).events)
    ∧ (∀ (cfg : HookCfg) (tr er : Bool) (key : Option Int) (occ sq au sw : Tensor)
          (e : Head) (cn2 : String) (par2 : Bool) (rank : Nat),
        do_evaluate cfg ⟨false, tr, er, key⟩
            ⟨⟨true, "TemporalOcc", true,
              some ⟨true, some occ, some sq, some au, some sw⟩⟩,
             ⟨true, cn2, par2, some e⟩, rank⟩ =
          ⟨none,
           ⟨⟨true, "TemporalOcc", true,
             some ⟨true, none, some sq, some au, some sw⟩⟩,
            ⟨true, cn2, par2, some { e with history_occ := none }⟩, rank⟩,
           if cfg.broadcast_bn_buffer then [Event.broadcastBN] else []⟩) := by
  constructor
  · intro cfg tr er key r
    rcases hE : historyEntry r with ⟨r1, snap, e1⟩
    cases e1 with
    | none =>
        refine ⟨?_, ?_, ?_⟩ <;>
          · simp only [do_evaluate, hE, Bool.false_eq_true, if_false]
            split <;> simp
    | some er' => simp [do_evaluate, hE]
  · intro cfg tr er key occ sq au sw e cn2 par2 rank
    rfl

/-! ## Claim C1: behaviour when the guarded evaluation region raises -/

/-- Claim C1, counterexample: when `multi_gpu_test` raises on a recognized
parallel model with a captured snapshot, the exception propagates but the
restoration does not run — the primary model's `history_occ` is still
`None` when the exception leaves `_do_evaluate`, not its pre-call value. -/
theorem do_evaluate_exception_skips_restore_cex :
    (do_evaluate ⟨false, true⟩ ⟨true, true, false, some 3⟩ runnerP).err =
      some PyErr.testError ∧
    (do_evaluate ⟨false, true⟩ ⟨true, true, false, some 3⟩ runnerP).runner.model.head =
      some ⟨true, none, some [2], some [3], some [4]⟩ ∧
    (do_evaluate ⟨false, true⟩ ⟨true, true, false, some 3⟩ runnerP).runner.model.head ≠
      runnerP.model.head :=
  ⟨rfl, rfl, by decide⟩

/-- Claim C1 (amended): there is no `try`/`finally` around the guarded
region — when `multi_gpu_test` raises, the exception propagates to the
caller uncaught, and the restoration step does not execute on that exit
path: the primary model's `history_occ` remains cleared (`None`) while the
other three buffers keep the values they had when the exception was
raised; buffers are restored only on normal completion. -/
theorem do_evaluate_exception_no_restore (cfg : HookCfg) (er : Bool) (key : Option Int)
    (occ sq au sw : Tensor) (e : Head) (cn2 : String) (par2 : Bool) (rank : Nat) :
    do_evaluate cfg ⟨true, true, er, key⟩
        ⟨⟨true, "TemporalOcc", true,
          some ⟨true, some occ, some sq, some au, some sw⟩⟩,
         ⟨true, cn2, par2, some e⟩, rank⟩ =
      ⟨some PyErr.testError,
       ⟨⟨true, "TemporalOcc", true,
         some ⟨true, none, some sq, some au, some sw⟩⟩,
        ⟨true, cn2, par2, some { e with history_occ := none }⟩, rank⟩,
       (if cfg.broadcast_bn_buffer then [Event.broadcastBN] else []) ++
         [Event.multiGpuTest]⟩ := by
  rfl

/-! ## Claim C5: restoration after a completed evaluation -/

/-- Claim C5, counterexample: after a normal run on a recognized parallel
model whose buffers were all non-empty, the EMA model's history buffers are
not all left empty — only its `history_occ` is `None`, while its
`history_seq_ids` (and the other two buffers) keep their non-empty
pre-call values. -/
theorem do_evaluate_ema_buffers_not_emptied_cex :
    do_evaluate ⟨false, true⟩ ⟨true, false, false, some 3⟩ runnerP =
      ⟨none,
       ⟨⟨true, "TemporalOcc", true, some headP⟩,
        ⟨true, "EMAModel", true, some ⟨true, none, some [8], some [7], some [6]⟩⟩, 0⟩,
       [Event.multiGpuTest, Event.evaluateCall, Event.saveCkpt 3]⟩ ∧
    (⟨true, none, some [8], some [7], some [6]⟩ : Head).history_seq_ids ≠ none :=
  ⟨rfl, by decide⟩

/-- Claim C5 (amended): for a recognized parallel model whose four history
buffers hold tensors, after `_do_evaluate` completes normally with the
trigger fired, the primary model's four buffers are bit-for-bit equal to
their pre-call values (restored from the cloned snapshot, written back to
the plain model only), while on the EMA model only `history_occ` is left
empty — its other three buffers are untouched. -/
theorem do_evaluate_restores_primary_clears_ema_occ (cfg : HookCfg) (key : Option Int)
    (occ sq au sw : Tensor) (e : Head) (cn2 : String) (par2 : Bool) (rank : Nat) :
    (do_evaluate cfg ⟨true, false, false, key⟩
        ⟨⟨true, "TemporalOcc", true,
          some ⟨true, some occ, some sq, some au, some sw⟩⟩,
         ⟨true, cn2, par2, some e⟩, rank⟩).err = none ∧
    (do_evaluate cfg ⟨true, false, false, key⟩
        ⟨⟨true, "TemporalOcc", true,
          some ⟨true, some occ, some sq, some au, some sw⟩⟩,
         ⟨true, cn2, par2, some e⟩, rank⟩).runner =
      ⟨⟨true, "TemporalOcc", true,
        some ⟨true, some occ, some sq, some au, some sw⟩⟩,
       ⟨true, cn2, par2, some { e with history_occ := none }⟩, rank⟩ := by
  constructor <;>
    simp [do_evaluate, historyEntry, historyExit, setOcc, rank0Err, ite_self]

/-! ## Claim C8: the checkpoint-save decision on rank 0 -/

/-- Claim C8, at the failing input: on rank 0 with `save_best` configured,
a present key score equal to `0` is skipped by the truthiness test
`self.save_best and key_score` — `_save_ckpt` is never invoked — whereas a
present non-zero score is saved exactly once; on a non-zero rank neither
the metric evaluation nor the save happens. -/
theorem do_evaluate_zero_score_skips_ckpt :
    do_evaluate ⟨false, true⟩ ⟨true, false, false, some 0⟩ runnerO =
      ⟨none, runnerO, [Event.multiGpuTest, Event.evaluateCall]⟩ ∧
    (∀ k : Int, Event.saveCkpt k ∉
      (do_evaluate ⟨false, true⟩ ⟨true, false, false, some 0⟩ runnerO).events) ∧
    do_evaluate ⟨false, true⟩ ⟨true, false, false, some 1⟩ runnerO =
      ⟨none, runnerO, [Event.multiGpuTest, Event.evaluateCall, Event.saveCkpt 1]⟩ ∧
    do_evaluate ⟨false, true⟩ ⟨true, false, false, some 0⟩
        ⟨runnerO.model, runnerO.ema, 3⟩ =
      ⟨none, ⟨runnerO.model, runnerO.ema, 3⟩, [Event.multiGpuTest]⟩ := by
  refine ⟨rfl, ?_, rfl, rfl⟩
  intro k
  simp [do_evaluate, historyEntry, rank0Events, rank0Err, runnerO]

/-! ## Claim C10: the non-parallel path of a recognized model -/

/-- Claim C10: for a recognized model that is not parallel-wrapped, no
snapshot of the history buffers is ever taken, and after `_do_evaluate`
completes (whether or not the trigger fired), `history_occ` is `None` on
both the primary and the EMA model regardless of its pre-call values — the
non-parallel path never restores the primary model's history. -/
theorem do_evaluate_nonparallel_clears_both (cfg : HookCfg) (se : Bool)
    (key : Option Int) (h e : Head) (hm2 : Bool) (cn2 : String) (par2 : Bool)
    (rank : Nat) :
    (historyEntry ⟨⟨true, "TemporalOcc", false, some { h with use_history_flag := true }⟩,
                   ⟨hm2, cn2, par2, some e⟩, rank⟩).2.1 = Snap.notTaken ∧
    (do_evaluate cfg ⟨se, false, false, key⟩
        ⟨⟨true, "TemporalOcc", false, some { h with use_history_flag := true }⟩,
         ⟨hm2, cn2, par2, some e⟩, rank⟩).err = none ∧
    (do_evaluate cfg ⟨se, false, false, key⟩
        ⟨⟨true, "TemporalOcc", false, some { h with use_history_flag := true }⟩,
         ⟨hm2, cn2, par2, some e⟩, rank⟩).runner =
      ⟨⟨true, "TemporalOcc", false,
        some { h with use_history_flag := true, history_occ := none }⟩,
       ⟨hm2, cn2, par2, some { e with history_occ := none }⟩, rank⟩ := by
  refine ⟨rfl, ?_, ?_⟩ <;>
    cases se <;>
      simp [do_evaluate, historyEntry, historyExit, setOcc, rank0Err, ite_self]
